import Mathlib

/-!
Verification of the input-translation core of the alacritty terminal emulator
(`alacritty/src/input.rs`): click-multiplicity classification, mouse-report
byte encoding, binding matching, touch-gesture transitions, selection
auto-scroll scheduling, and the accumulated-scroll invariant.

Shallow embedding conventions:
- machine integers are modelled as `Nat`/`Int` with `% 256` at the points
  where the source performs an `as u8` cast or `u8` arithmetic;
- `std::time` durations are modelled as natural numbers (nanoseconds);
- `f64` quantities entering the scroll accumulator are modelled as rationals,
  with Rust's `%` on floats (truncated remainder, exact in IEEE 754) modelled
  by an exact truncated remainder on `ℚ`;
- a function that either writes bytes to the PTY or writes nothing is
  modelled as returning `Option (List ℕ)`, `none` meaning nothing is written.
-/

namespace Alacritty

/-- Embeds `winit::event::MouseButton`. -/
inductive SMouseButton where
  | left
  | middle
  | right
  | other (n : ℕ)
deriving DecidableEq, Repr

/-- Embeds `crate::event::ClickState`. -/
inductive ClickState where
  | none
  | click
  | doubleClick
  | tripleClick
deriving DecidableEq, Repr

/-- Embeds `winit::event::ElementState`. -/
inductive SElementState where
  | pressed
  | released
deriving DecidableEq, Repr

/-- The multi-click update of `click_state` performed by `on_mouse_press`
(input.rs lines 422-436) in the non-mouse-mode branch.  `elapsed` is the time
since `last_click_timestamp`; `doubleThresh` and `tripleThresh` are
`mouse_config.double_click.threshold()` and
`mouse_config.triple_click.threshold()` (all in nanoseconds).  The source
match arms, in order: reset to `Click` when the button changed;
`Click → DoubleClick` when `elapsed < double_click.threshold()`;
`DoubleClick → TripleClick` when `elapsed < triple_click.threshold()`;
catch-all to `Click`. -/
def clickStateTransition (button lastClickButton : SMouseButton)
    (state : ClickState) (elapsed doubleThresh tripleThresh : ℕ) : ClickState :=
  if button ≠ lastClickButton then
    ClickState.click
  else
    match state with
    | ClickState.click =>
        if elapsed < doubleThresh then ClickState.doubleClick else ClickState.click
    | ClickState.doubleClick =>
        if elapsed < tripleThresh then ClickState.tripleClick else ClickState.click
    | _ => ClickState.click

/-- The `click_state` written by `on_mouse_press` (input.rs lines 400-436):
when `!modifiers.shift() && mouse_mode()` the state is explicitly reset to
`ClickState::None`; otherwise the multi-click transition runs. -/
def onMousePressClickState (shift mouseMode : Bool)
    (button lastClickButton : SMouseButton) (state : ClickState)
    (elapsed doubleThresh tripleThresh : ℕ) : ClickState :=
  if !shift && mouseMode then
    ClickState.none
  else
    clickStateTransition button lastClickButton state elapsed doubleThresh tripleThresh

/-- The subset of `TermMode` flags consulted by the mouse-report path:
`SGR_MOUSE` and `UTF8_MOUSE`. -/
structure STermMode where
  sgrMouse : Bool
  utf8Mouse : Bool
deriving DecidableEq, Repr

/-- The modifier flags consulted when encoding mouse reports
(`winit::event::ModifiersState`). -/
structure SModifiers where
  shift : Bool
  alt : Bool
  ctrl : Bool
deriving DecidableEq, Repr

/-- The modifier value computed at the top of `mouse_report`
(input.rs lines 333-344): shift adds 4, alt adds 8, ctrl adds 16. -/
def modsValue (m : SModifiers) : ℕ :=
  (if m.shift then 4 else 0) + (if m.alt then 8 else 0) + (if m.ctrl then 16 else 0)

/-- The `mouse_pos_encode` closure inside `normal_mouse_report`: a coordinate
`pos` becomes `32 + 1 + pos` and is packed into two bytes
`0xC0 + pos / 64` and `0x80 + (pos & 63)`; the `as u8` casts are `% 256`. -/
def mouse_pos_encode (pos : ℕ) : List ℕ :=
  let pos := 32 + 1 + pos
  [(0xC0 + pos / 64) % 256, (0x80 + pos % 64) % 256]

/-- ASCII decimal digits of a natural number (the bytes `format!` produces for
a nonnegative integer), via a fuel-indexed division loop. -/
def natDigitsGo : ℕ → ℕ → List ℕ
  | 0, _ => []
  | fuel + 1, n =>
      if n < 10 then [48 + n] else natDigitsGo fuel (n / 10) ++ [48 + n % 10]

/-- ASCII decimal digits of a natural number. -/
def natDigits (n : ℕ) : List ℕ := natDigitsGo (n + 1) n

/-- Embeds `normal_mouse_report` (input.rs lines 356-388).  `line` is nonnegative
when reached (the caller `mouse_report` returns early on scrollback points),
so it is taken as a natural number here; `column` is a `usize`.  Returns
`none` when nothing is written to the PTY.  The byte `32 + button` and the
single-byte coordinate forms `32 + 1 + coord as u8` are `u8` arithmetic,
modelled with `% 256`. -/
def normal_mouse_report (utf8 : Bool) (line column : ℕ) (button : ℕ) :
    Option (List ℕ) :=
  let maxPoint : ℕ := if utf8 then 2015 else 223
  if line ≥ maxPoint ∨ column ≥ maxPoint then
    none
  else
    some ([0x1b, 91, 77, (32 + button) % 256]
      ++ (if utf8 ∧ column ≥ 95 then mouse_pos_encode column
          else [(32 + 1 + column % 256) % 256])
      ++ (if utf8 ∧ line ≥ 95 then mouse_pos_encode line
          else [(32 + 1 + line % 256) % 256]))

/-- Embeds `sgr_mouse_report` (input.rs lines 390-398): the bytes of
`format!("\x1b[<{};{};{}{}", button, column + 1, line + 1, c)` where `c` is
`M` for a press and `m` for a release.  91, 60 and 59 are the ASCII codes of
the bracket, `<` and `;`. -/
def sgr_mouse_report (line column : ℕ) (button : ℕ) (state : SElementState) :
    List ℕ :=
  [0x1b, 91, 60] ++ natDigits button ++ [59] ++ natDigits (column + 1)
    ++ [59] ++ natDigits (line + 1)
    ++ [if state = SElementState.pressed then 77 else 109]

/-- Embeds `mouse_report` (input.rs lines 324-354): returns early (writing nothing)
when the point is in the scrollback (`line < 0`); otherwise computes the
modifier value and dispatches to the SGR encoder, or to the legacy encoder
with the generic code `3 + mods` for releases and `button + mods` otherwise.
The `u8` additions on button codes are modelled with `% 256`. -/
def mouse_report (mode : STermMode) (m : SModifiers) (line : ℤ) (column : ℕ)
    (button : ℕ) (state : SElementState) : Option (List ℕ) :=
  if line < 0 then
    none
  else
    let mods := modsValue m
    if mode.sgrMouse then
      some (sgr_mouse_report line.toNat column ((button + mods) % 256) state)
    else if state = SElementState.released then
      normal_mouse_report mode.utf8Mouse line.toNat column ((3 + mods) % 256)
    else
      normal_mouse_report mode.utf8Mouse line.toNat column ((button + mods) % 256)

/-- Embeds `crate::config::Key` as used by key matching: a resolved keycode or a raw
scancode. -/
inductive SKey where
  | keycode (k : ℕ)
  | scancode (raw : ℕ)
deriving DecidableEq, Repr

/-- Embeds `crate::config::Action`, to the granularity the suppression logic needs:
the `ReceiveChar` sentinel is distinguished; escape-string actions carry
their bytes; every other action variant is abstracted by a tag. -/
inductive SAction where
  | receiveChar
  | esc (bytes : List ℕ)
  | other (tag : ℕ)
deriving DecidableEq, Repr

/-- Embeds `winit::event::ModifiersState` as compared exactly by binding matching
(includes the logo key, which the mouse-report modifier value ignores). -/
structure SModifiersState where
  shift : Bool
  alt : Bool
  ctrl : Bool
  logo : Bool
deriving DecidableEq, Repr

/-- A key binding: trigger, exact modifiers, required-mode bitmask,
forbidden-mode bitmask, action. -/
structure KeyBinding where
  trigger : SKey
  mods : SModifiersState
  mode : ℕ
  notmode : ℕ
  action : SAction
deriving DecidableEq, Repr

/-- Embeds `winit::event::KeyboardInput`, restricted to the fields key matching
reads: the raw scancode and the optional resolved keycode. -/
structure SKeyboardInput where
  scancode : ℕ
  virtual_keycode : Option ℕ
deriving DecidableEq, Repr

/-- Modelled from the spec: `Binding::is_triggered_by` lives in
`alacritty/src/config/bindings.rs`, which is not among the sources.  Spec
§4.4: a binding matches iff `binding.modifiers == modifiers` (exact match,
not subset), every bit in `binding.mode` is set in the live mode, no bit in
`binding.notmode` is set in the live mode, and the trigger matches the
candidate key identity. -/
def is_triggered_by (b : KeyBinding) (mode : ℕ) (mods : SModifiersState)
    (key : SKey) : Bool :=
  b.mods == mods && (b.mode &&& mode == b.mode) && (b.notmode &&& mode == 0)
    && b.trigger == key

/-- The key identity a binding is matched against, from the `match` at the
top of the `process_key_bindings` loop (input.rs lines 897-901): scancode
bindings match on the raw scancode; otherwise the resolved keycode is used
when present, and the binding is skipped (`continue`) when it is absent. -/
def bindingKey (b : KeyBinding) (input : SKeyboardInput) : Option SKey :=
  match b.trigger, input.virtual_keycode with
  | SKey.scancode _, _ => some (SKey.scancode input.scancode)
  | _, some k => some (SKey.keycode k)
  | _, none => none

/-- Whether one binding fires for the given input under the live mode and
modifiers. -/
def bindingMatches (mode : ℕ) (mods : SModifiersState) (input : SKeyboardInput)
    (b : KeyBinding) : Bool :=
  match bindingKey b input with
  | some key => is_triggered_by b mode mods key
  | none => false

/-- The loop of `process_key_bindings` (input.rs lines 890-915): walks the
binding list in order; for each triggered binding executes its action (here:
appends it to the result list) and folds
`*suppress_chars.get_or_insert(true) &= binding.action != ReceiveChar` into
the optional suppression flag. -/
def processKeyBindingsGo (mode : ℕ) (mods : SModifiersState)
    (input : SKeyboardInput) :
    List KeyBinding → Option Bool → List SAction × Option Bool
  | [], sup => ([], sup)
  | b :: rest, sup =>
      match bindingKey b input with
      | none => processKeyBindingsGo mode mods input rest sup
      | some key =>
          if is_triggered_by b mode mods key then
            let r := processKeyBindingsGo mode mods input rest
              (some (sup.getD true && (b.action != SAction.receiveChar)))
            (b.action :: r.1, r.2)
          else
            processKeyBindingsGo mode mods input rest sup

/-- Embeds `process_key_bindings`: the executed actions in order, and the final
`suppress_chars` value `suppress_chars.unwrap_or(false)`. -/
def process_key_bindings (bindings : List KeyBinding) (mode : ℕ)
    (mods : SModifiersState) (input : SKeyboardInput) : List SAction × Bool :=
  let r := processKeyBindingsGo mode mods input bindings none
  (r.1, r.2.getD false)

/-- The sublist of bindings that fire for the given input, in list order. -/
def matchedBindings (bindings : List KeyBinding) (mode : ℕ)
    (mods : SModifiersState) (input : SKeyboardInput) : List KeyBinding :=
  bindings.filter (bindingMatches mode mods input)

/-- Embeds `winit::event::Touch`, restricted to the fields the gesture classifier
reads: the touch id and the location (modelled as rationals). -/
structure STouchEvent where
  id : ℕ
  x : ℚ
  y : ℚ
deriving DecidableEq

/-- The pair of touch origins held by a pinch-zoom gesture. -/
structure STouchZoom where
  first : STouchEvent
  second : STouchEvent
deriving DecidableEq

/-- Modelled from the spec: `TouchZoom::new` lives in `alacritty/src/event.rs`,
which is not among the sources; it stores the pair of touch origins. -/
def STouchZoom.new (pair : STouchEvent × STouchEvent) : STouchZoom :=
  ⟨pair.1, pair.2⟩

/-- Modelled from the spec: `TouchZoom::slots` lives in
`alacritty/src/event.rs`, which is not among the sources; it returns the set
of touch ids participating in the zoom. -/
def STouchZoom.slots (z : STouchZoom) : Finset ℕ :=
  {z.first.id, z.second.id}

/-- Embeds `crate::event::TouchPurpose`: the touch-gesture state.  `Invalid` carries
the set of touch ids it absorbs (a `HashSet<u64>` in the source, modelled as
a `Finset`). -/
inductive TouchPurpose where
  | noTouch
  | tap (t : STouchEvent)
  | zoom (z : STouchZoom)
  | scroll (e : STouchEvent)
  | dragSelect (e : STouchEvent)
  | invalid (slots : Finset ℕ)
deriving DecidableEq

/-- Embeds `on_touch_start` (input.rs lines 630-646): the touch-begin transition of
the gesture state machine.  `Scroll` and `Select` share one source arm that
builds a fresh set holding only the stored event's id; `Invalid` inserts the
new touch's id into its set. -/
def on_touch_start (tp : TouchPurpose) (touch : STouchEvent) : TouchPurpose :=
  match tp with
  | TouchPurpose.noTouch => TouchPurpose.tap touch
  | TouchPurpose.tap start => TouchPurpose.zoom (STouchZoom.new (start, touch))
  | TouchPurpose.zoom z => TouchPurpose.invalid z.slots
  | TouchPurpose.scroll event => TouchPurpose.invalid {event.id}
  | TouchPurpose.dragSelect event => TouchPurpose.invalid {event.id}
  | TouchPurpose.invalid slots => TouchPurpose.invalid (insert touch.id slots)

/-- Truncation toward zero, the rounding Rust's `%` on floats is defined
against. -/
def ratTrunc (q : ℚ) : ℤ :=
  if 0 ≤ q then ⌊q⌋ else ⌈q⌉

/-- Rust's `%` on `f64` (truncated remainder, exact in IEEE 754), modelled
exactly on the rationals: `a % b = a - b * trunc(a / b)`. -/
def frem (a b : ℚ) : ℚ :=
  a - b * ratTrunc (a / b)

/-- The accumulated sub-cell scroll remainder `mouse.accumulated_scroll`. -/
structure AccumulatedScroll where
  x : ℚ
  y : ℚ
deriving DecidableEq

/-- The effect of `scroll_terminal` (input.rs lines 536-609) on
`accumulated_scroll`: the mouse-mode branch adds the raw pixel deltas, the
alternate-scroll branch adds the deltas times the scrolling multiplier, the
plain branch adds only the vertical delta times the multiplier; at the end of
the call both components are reduced `%=` by the cell dimensions. -/
def scroll_terminal_accum (mouseMode altScroll : Bool) (multiplier : ℚ)
    (acc : AccumulatedScroll) (newScrollXPx newScrollYPx width height : ℚ) :
    AccumulatedScroll :=
  let acc1 : AccumulatedScroll :=
    if mouseMode then
      ⟨acc.x + newScrollXPx, acc.y + newScrollYPx⟩
    else if altScroll then
      ⟨acc.x + newScrollXPx * multiplier, acc.y + newScrollYPx * multiplier⟩
    else
      ⟨acc.x, acc.y + newScrollYPx * multiplier⟩
  ⟨frem acc1.x width, frem acc1.y height⟩

/-- Embeds `crate::scheduler::Topic`: the category part of a timer key. -/
inductive Topic where
  | selectionScrolling
  | frame
  | delayedSearch
deriving DecidableEq, Repr

/-- Embeds `crate::scheduler::TimerId`: a `(topic, window)` key identifying a
pending timer. -/
structure TimerId where
  topic : Topic
  windowId : ℕ
deriving DecidableEq, Repr

/-- The scheduled event payload relevant to selection scrolling:
`EventType::Scroll(Scroll::Delta(delta))`. -/
structure SchedEvent where
  scrollDelta : ℤ
deriving DecidableEq, Repr

/-- A pending timer: key, payload, interval (milliseconds) and whether it
repeats. -/
structure Timer where
  id : TimerId
  event : SchedEvent
  intervalMs : ℕ
  repeating : Bool
deriving DecidableEq, Repr

/-- The pending-timer collection of the external scheduler collaborator. -/
structure SScheduler where
  timers : List Timer
deriving DecidableEq, Repr

/-- Modelled from the spec: `Scheduler::unschedule` lives in
`alacritty/src/scheduler.rs`, which is not among the sources; it cancels the
pending timer under the given `(topic, window)` key. -/
def SScheduler.unschedule (s : SScheduler) (id : TimerId) : SScheduler :=
  ⟨s.timers.filter (fun t => t.id != id)⟩

/-- Modelled from the spec: `Scheduler::schedule(event, delay, repeating,
timer_id)` lives in `alacritty/src/scheduler.rs`, which is not among the
sources; it registers a pending timer under the given key. -/
def SScheduler.schedule (s : SScheduler) (event : SchedEvent)
    (intervalMs : ℕ) (repeating : Bool) (id : TimerId) : SScheduler :=
  ⟨s.timers ++ [⟨id, event, intervalMs, repeating⟩]⟩

/-- The pending timers registered under a given key. -/
def SScheduler.pendingWith (s : SScheduler) (id : TimerId) : List Timer :=
  s.timers.filter (fun t => t.id == id)

/-- Embeds `SELECTION_SCROLLING_INTERVAL` (input.rs line 50): 15 milliseconds. -/
def SELECTION_SCROLLING_INTERVAL : ℕ := 15

/-- The `(SelectionScrolling, window)` timer key used by
`update_selection_scrolling`. -/
def selScrollTimerId (windowId : ℕ) : TimerId :=
  ⟨Topic.selectionScrolling, windowId⟩

/-- Embeds `end_top = max(min_height, padding_y)` (input.rs line 998), with the
DPI-scaled `min_height` and the `as i32` casts taken as integer inputs. -/
def endTopOf (minHeight paddingY : ℤ) : ℤ :=
  max minHeight paddingY

/-- Embeds `start_bottom = min(height - min_height, text_area_bottom)`
(input.rs line 1000). -/
def startBottomOf (minHeight height textAreaBottom : ℤ) : ℤ :=
  min (height - minHeight) textAreaBottom

/-- The raw scroll distance computed by `update_selection_scrolling`:
`end_top - mouse_y + step` above the area, `start_bottom - mouse_y - step`
below it, and nothing (early return after cancelling) inside
`[end_top, start_bottom)`. -/
def selScrollDelta (minHeight step paddingY height textAreaBottom mouseY : ℤ) :
    Option ℤ :=
  if mouseY < endTopOf minHeight paddingY then
    some (endTopOf minHeight paddingY - mouseY + step)
  else if startBottomOf minHeight height textAreaBottom ≤ mouseY then
    some (startBottomOf minHeight height textAreaBottom - mouseY - step)
  else
    none

/-- Embeds `update_selection_scrolling` (input.rs lines 986-1018): inside
`[end_top, start_bottom)` the selection-scrolling timer is unschedule-d and
nothing is scheduled; otherwise the prior timer under the same key is
unschedule-d first and a repeating timer carrying
`Scroll::Delta(delta / step)` (Rust `i32` division truncates toward zero:
`Int.tdiv`) is scheduled at the 15 ms interval. -/
def update_selection_scrolling (sched : SScheduler) (windowId : ℕ)
    (minHeight step paddingY height textAreaBottom mouseY : ℤ) : SScheduler :=
  match selScrollDelta minHeight step paddingY height textAreaBottom mouseY with
  | none => sched.unschedule (selScrollTimerId windowId)
  | some delta =>
      (sched.unschedule (selScrollTimerId windowId)).schedule
        ⟨Int.tdiv delta step⟩ SELECTION_SCROLLING_INTERVAL true
        (selScrollTimerId windowId)

/-- The multi-click transition never produces `ClickState.none`. -/
theorem clickStateTransition_ne_none (b lb : SMouseButton) (s : ClickState)
    (e d t : ℕ) : clickStateTransition b lb s e d t ≠ ClickState.none := by
  unfold clickStateTransition
  split
  · simp
  · cases s <;> simp <;> split <;> simp

/-- A press of a button different from `last_click_button` transitions to
`ClickState.click` regardless of elapsed time and prior state. -/
theorem clickStateTransition_button_change (b lb : SMouseButton) (s : ClickState)
    (e d t : ℕ) (h : b ≠ lb) :
    clickStateTransition b lb s e d t = ClickState.click := by
  unfold clickStateTransition
  simp [h]

/-- C1 counterexample: starting from the post-construction state, four presses
of the same button with inter-press gaps of 0 ns against thresholds of 300 ns
advance `Click → DoubleClick → TripleClick` and then the 4th press yields
`Click`, not `TripleClick`: the source match only maps `DoubleClick` to
`TripleClick`, and `TripleClick` falls into the catch-all arm that resets to
`Click`. -/
theorem fourth_press_resets_to_click :
    clickStateTransition SMouseButton.left SMouseButton.right ClickState.none
        0 300 300 = ClickState.click ∧
    clickStateTransition SMouseButton.left SMouseButton.left ClickState.click
        0 300 300 = ClickState.doubleClick ∧
    clickStateTransition SMouseButton.left SMouseButton.left
        ClickState.doubleClick 0 300 300 = ClickState.tripleClick ∧
    clickStateTransition SMouseButton.left SMouseButton.left
        ClickState.tripleClick 0 300 300 ≠ ClickState.tripleClick := by
  refine ⟨by decide, by decide, by decide, by decide⟩

/-- C1 (amended): for a press sequence of the same button with every
inter-press gap below both click thresholds, `click_state` advances `Click`
on the 1st press, `DoubleClick` on the 2nd, `TripleClick` on the 3rd, and a
4th press within the threshold resets to `Click` (the transition catch-all
maps `TripleClick` back to `Click`). -/
theorem click_sequence_advances (button lb0 : SMouseButton) (g1 g2 g3 g4 d t : ℕ)
    (h1d : g1 < d) (h1t : g1 < t) (h2d : g2 < d) (h2t : g2 < t)
    (h3d : g3 < d) (h3t : g3 < t) (h4d : g4 < d) (h4t : g4 < t) :
    clickStateTransition button lb0 ClickState.none g1 d t = ClickState.click ∧
    clickStateTransition button button ClickState.click g2 d t =
      ClickState.doubleClick ∧
    clickStateTransition button button ClickState.doubleClick g3 d t =
      ClickState.tripleClick ∧
    clickStateTransition button button ClickState.tripleClick g4 d t =
      ClickState.click := by
  refine ⟨?_, ?_, ?_, ?_⟩
  · by_cases hb : button = lb0 <;> simp [clickStateTransition, hb]
  · simp [clickStateTransition, h2d]
  · simp [clickStateTransition, h3t]
  · simp [clickStateTransition]

/-- Witness for `click_sequence_advances` at button Left, previous button
Right, gaps 5 ns, thresholds 300 ns and 400 ns. -/
theorem click_sequence_advances_witness :
    clickStateTransition SMouseButton.left SMouseButton.right ClickState.none
        5 300 400 = ClickState.click ∧
    clickStateTransition SMouseButton.left SMouseButton.left ClickState.click
        5 300 400 = ClickState.doubleClick ∧
    clickStateTransition SMouseButton.left SMouseButton.left
        ClickState.doubleClick 5 300 400 = ClickState.tripleClick ∧
    clickStateTransition SMouseButton.left SMouseButton.left
        ClickState.tripleClick 5 300 400 = ClickState.click :=
  click_sequence_advances SMouseButton.left SMouseButton.right 5 5 5 5 300 400
    (by decide) (by decide) (by decide) (by decide)
    (by decide) (by decide) (by decide) (by decide)

/-- C4: the `click_state` written by `on_mouse_press` is `ClickState.none`
only in the explicit mouse-mode reset branch (`!shift && mouse_mode`); in the
multi-click branch the transition never yields `None`, and in particular a
press of a button different from `last_click_button` sets `click_state` to
`Click`. -/
theorem click_state_none_only_explicit_reset (shift mouseMode : Bool)
    (button lb : SMouseButton) (state : ClickState) (elapsed d t : ℕ) :
    (onMousePressClickState shift mouseMode button lb state elapsed d t =
        ClickState.none → (shift = false ∧ mouseMode = true)) ∧
    (¬(shift = false ∧ mouseMode = true) → button ≠ lb →
      onMousePressClickState shift mouseMode button lb state elapsed d t =
        ClickState.click) := by
  unfold onMousePressClickState
  cases shift <;> cases mouseMode <;> simp
  all_goals
    refine ⟨fun h => absurd h (clickStateTransition_ne_none _ _ _ _ _ _), ?_⟩
  all_goals
    exact fun hb => clickStateTransition_button_change _ _ _ _ _ _ hb

/-- Witness for `click_state_none_only_explicit_reset` with shift held (so the
multi-click branch runs) and a button change from Right to Left. -/
theorem click_state_none_only_explicit_reset_witness :
    onMousePressClickState true true SMouseButton.left SMouseButton.right
      ClickState.doubleClick 0 300 300 = ClickState.click :=
  (click_state_none_only_explicit_reset true true SMouseButton.left
      SMouseButton.right ClickState.doubleClick 0 300 300).2
    (by decide) (by decide)

/-- C2 counterexample: in Normal (legacy) mode a point with column = 223 —
inside "usable up to 223" as the claim states it — produces no byte sequence,
because the source guard drops points with `line >= max_point ||
column >= max_point` and `max_point` is 223; likewise column = 2015 in UTF8
mode.  Shown both on `normal_mouse_report` and through the `mouse_report`
dispatcher. -/
theorem coordinate_cap_boundary_dropped :
    normal_mouse_report false 0 223 0 = none ∧
    normal_mouse_report true 0 2015 0 = none ∧
    mouse_report ⟨false, false⟩ ⟨false, false, false⟩ 0 223 0
      SElementState.pressed = none ∧
    mouse_report ⟨false, true⟩ ⟨false, false, false⟩ 0 2015 0
      SElementState.pressed = none := by
  refine ⟨by decide, by decide, by decide, by decide⟩

/-- C2 (amended): legacy mode caps usable coordinates at 222 and UTF8 mode at
2014; every point whose line or column is at or beyond 223 (legacy) or 2015
(UTF8) yields no byte sequence — the encoder returns `none`, writing nothing
and raising no error — and every point with both coordinates strictly below
the cap yields a byte sequence. -/
theorem normal_report_coordinate_caps (utf8 : Bool) (line col b : ℕ) :
    ((if utf8 then 2015 else 223) ≤ line ∨ (if utf8 then 2015 else 223) ≤ col →
      normal_mouse_report utf8 line col b = none) ∧
    (line < (if utf8 then 2015 else 223) → col < (if utf8 then 2015 else 223) →
      (normal_mouse_report utf8 line col b).isSome = true) := by
  unfold normal_mouse_report
  cases utf8 <;> simp <;> omega

/-- Witness for `normal_report_coordinate_caps`: legacy column 224 is dropped,
legacy point (100, 5) is encoded. -/
theorem normal_report_coordinate_caps_witness :
    normal_mouse_report false 100 224 0 = none ∧
    (normal_mouse_report false 100 5 0).isSome = true :=
  ⟨(normal_report_coordinate_caps false 100 224 0).1 (by decide),
   (normal_report_coordinate_caps false 100 5 0).2 (by decide) (by decide)⟩

/-- C5: in SGR mode, for every point not in the scrollback, every button code
and every modifier combination, the bytes written are exactly the ASCII text
`ESC [ < {b+mods} ; {col+1} ; {line+1}` followed by `M` for a press and `m`
for a release, where mods adds 4 for shift, 8 for alt and 16 for ctrl — with
no upper limit on the coordinates (the result is `some` for all of them). -/
theorem sgr_report_bytes (mode : STermMode) (m : SModifiers) (line : ℤ)
    (col b : ℕ) (state : SElementState) (hsgr : mode.sgrMouse = true)
    (hline : 0 ≤ line) (hb : b + modsValue m < 256) :
    mouse_report mode m line col b state =
      some ([0x1b, 91, 60]
        ++ natDigits (b + ((if m.shift then 4 else 0) + (if m.alt then 8 else 0)
            + (if m.ctrl then 16 else 0)))
        ++ [59] ++ natDigits (col + 1) ++ [59] ++ natDigits (line.toNat + 1)
        ++ [if state = SElementState.pressed then 77 else 109]) := by
  simp [mouse_report, hsgr, not_lt.mpr hline, sgr_mouse_report, modsValue]
  have hb2 := hb
  simp only [modsValue] at hb2
  rw [Nat.mod_eq_of_lt hb2]

/-- Witness for `sgr_report_bytes`: shift-press of button 0 at line 2,
column 10 emits the ASCII bytes of the text `ESC [ < 4 ; 11 ; 3 M`. -/
theorem sgr_report_bytes_witness :
    mouse_report ⟨true, false⟩ ⟨true, false, false⟩ 2 10 0
      SElementState.pressed =
      some [0x1b, 91, 60, 52, 59, 49, 49, 59, 51, 77] := by
  have h := sgr_report_bytes ⟨true, false⟩ ⟨true, false, false⟩ 2 10 0
    SElementState.pressed rfl (by decide) (by decide)
  rw [h]
  decide

/-- C6: while SGR mode is inactive, a release report carries the generic
button code `3 + mods` whatever the released button was: the emitted bytes do
not depend on the button argument, and (outside the scrollback) they are the
legacy encoding of code `3 + mods`. -/
theorem legacy_release_generic_code (mode : STermMode) (m : SModifiers)
    (line : ℤ) (col b1 b2 : ℕ) (hsgr : mode.sgrMouse = false) :
    mouse_report mode m line col b1 SElementState.released =
      mouse_report mode m line col b2 SElementState.released ∧
    (0 ≤ line → mouse_report mode m line col b1 SElementState.released =
      normal_mouse_report mode.utf8Mouse line.toNat col
        ((3 + modsValue m) % 256)) := by
  constructor
  · simp [mouse_report, hsgr]
  · intro h
    simp [mouse_report, hsgr, not_lt.mpr h]

/-- Witness for `legacy_release_generic_code`: releasing button 0 and button 2
at line 3, column 4 in Normal mode emit the same bytes, namely the legacy
encoding of code 3. -/
theorem legacy_release_generic_code_witness :
    mouse_report ⟨false, false⟩ ⟨false, false, false⟩ 3 4 0
        SElementState.released =
      mouse_report ⟨false, false⟩ ⟨false, false, false⟩ 3 4 2
        SElementState.released ∧
    mouse_report ⟨false, false⟩ ⟨false, false, false⟩ 3 4 0
        SElementState.released = normal_mouse_report false 3 4 3 :=
  ⟨(legacy_release_generic_code ⟨false, false⟩ ⟨false, false, false⟩ 3 4 0 2
      rfl).1,
   (legacy_release_generic_code ⟨false, false⟩ ⟨false, false, false⟩ 3 4 0 2
      rfl).2 (by decide)⟩

/-- C9: a mouse report whose target point lies in the scrollback (`line < 0`)
writes no bytes to the PTY, in every reporting mode — SGR included — for
every button, modifier combination and press/release state. -/
theorem scrollback_point_no_report (mode : STermMode) (m : SModifiers)
    (line : ℤ) (col b : ℕ) (state : SElementState) (h : line < 0) :
    mouse_report mode m line col b state = none := by
  simp [mouse_report, h]

/-- Witness for `scrollback_point_no_report` at line -1 in SGR mode. -/
theorem scrollback_point_no_report_witness :
    mouse_report ⟨true, false⟩ ⟨false, false, false⟩ (-1) 0 0
      SElementState.pressed = none :=
  scrollback_point_no_report ⟨true, false⟩ ⟨false, false, false⟩ (-1) 0 0
    SElementState.pressed (by decide)

/-- Specification of the binding loop for an arbitrary incoming suppression
accumulator, proved by induction over the binding list. -/
theorem processKeyBindingsGo_spec (mode : ℕ) (mods : SModifiersState)
    (input : SKeyboardInput) (bs : List KeyBinding) : ∀ sup : Option Bool,
    processKeyBindingsGo mode mods input bs sup =
      ((bs.filter (bindingMatches mode mods input)).map KeyBinding.action,
        match sup with
        | some s =>
            some (s && (bs.filter (bindingMatches mode mods input)).all
              (fun b => b.action != SAction.receiveChar))
        | none =>
            if (bs.filter (bindingMatches mode mods input)).isEmpty then none
            else
              some ((bs.filter (bindingMatches mode mods input)).all
                (fun b => b.action != SAction.receiveChar))) := by
  induction bs with
  | nil => intro sup; cases sup <;> simp [processKeyBindingsGo]
  | cons b rest ih =>
    intro sup
    rcases hk : bindingKey b input with _ | key
    · have hbm : bindingMatches mode mods input b = false := by
        simp [bindingMatches, hk]
      simp only [processKeyBindingsGo, hk, List.filter_cons, hbm]
      simpa using ih sup
    · have hbm : bindingMatches mode mods input b =
          is_triggered_by b mode mods key := by
        simp [bindingMatches, hk]
      cases ht : is_triggered_by b mode mods key with
      | false =>
          simp only [processKeyBindingsGo, hk, ht, if_false, List.filter_cons,
            hbm]
          simpa using ih sup
      | true =>
          simp only [processKeyBindingsGo, hk, ht, if_true, List.filter_cons,
            hbm]
          rw [ih (some (sup.getD true && (b.action != SAction.receiveChar)))]
          cases sup <;> simp [Bool.and_assoc]

/-- C3: for every key press and every ordered binding list, the executed
actions are exactly those of the matched bindings in list order (all of them,
not just the first), and the suppression flag is the AND, over all matched
bindings, of "action is not `ReceiveChar`" — false when zero bindings match,
so the character passes through by default. -/
theorem key_bindings_all_fire (bindings : List KeyBinding) (mode : ℕ)
    (mods : SModifiersState) (input : SKeyboardInput) :
    process_key_bindings bindings mode mods input =
      ((matchedBindings bindings mode mods input).map KeyBinding.action,
        !(matchedBindings bindings mode mods input).isEmpty &&
          (matchedBindings bindings mode mods input).all
            (fun b => b.action != SAction.receiveChar)) := by
  unfold process_key_bindings matchedBindings
  rw [processKeyBindingsGo_spec]
  cases h : (bindings.filter (bindingMatches mode mods input)).isEmpty <;>
    simp [h]

/-- C7: the touch-begin transitions of the gesture state machine, exactly as
claimed: `None → Tap(t)`; `Tap(a) → Zoom(pair(a,t))`; `Zoom(z) → Invalid`
holding z's touch ids; `Scroll(e)` or `Select(e) → Invalid({e.id})`;
`Invalid(s) → Invalid(s ∪ {t.id})`. -/
theorem touch_start_transitions (t a e : STouchEvent) (z : STouchZoom)
    (s : Finset ℕ) :
    on_touch_start TouchPurpose.noTouch t = TouchPurpose.tap t ∧
    on_touch_start (TouchPurpose.tap a) t =
      TouchPurpose.zoom (STouchZoom.new (a, t)) ∧
    on_touch_start (TouchPurpose.zoom z) t = TouchPurpose.invalid z.slots ∧
    on_touch_start (TouchPurpose.scroll e) t = TouchPurpose.invalid {e.id} ∧
    on_touch_start (TouchPurpose.dragSelect e) t =
      TouchPurpose.invalid {e.id} ∧
    on_touch_start (TouchPurpose.invalid s) t =
      TouchPurpose.invalid (s ∪ {t.id}) := by
  refine ⟨rfl, rfl, rfl, rfl, rfl, ?_⟩
  simp [on_touch_start, Finset.insert_eq, Finset.union_comm]

/-- The truncated remainder is strictly smaller than a positive divisor in
absolute value. -/
theorem abs_frem_lt (a b : ℚ) (hb : 0 < b) : |frem a b| < b := by
  rw [abs_lt]
  unfold frem ratTrunc
  have hbne : b ≠ 0 := ne_of_gt hb
  have key : a / b * b = a := div_mul_cancel₀ a hbne
  by_cases h : 0 ≤ a / b
  · rw [if_pos h]
    have hf1 : ((⌊a / b⌋ : ℚ)) ≤ a / b := Int.floor_le _
    have hf2 : a / b < ⌊a / b⌋ + 1 := Int.lt_floor_add_one _
    have h1 : ((⌊a / b⌋ : ℚ)) * b ≤ a := by
      calc ((⌊a / b⌋ : ℚ)) * b ≤ a / b * b :=
            mul_le_mul_of_nonneg_right hf1 hb.le
        _ = a := key
    have h2 : a < (((⌊a / b⌋ : ℚ)) + 1) * b := by
      calc a = a / b * b := key.symm
        _ < (((⌊a / b⌋ : ℚ)) + 1) * b := mul_lt_mul_of_pos_right hf2 hb
    constructor <;> nlinarith
  · rw [if_neg h]
    have hf1 : a / b ≤ ((⌈a / b⌉ : ℚ)) := Int.le_ceil _
    have hf2 : ((⌈a / b⌉ : ℚ)) < a / b + 1 := Int.ceil_lt_add_one _
    have h1 : a ≤ ((⌈a / b⌉ : ℚ)) * b := by
      calc a = a / b * b := key.symm
        _ ≤ ((⌈a / b⌉ : ℚ)) * b := mul_le_mul_of_nonneg_right hf1 hb.le
    have h2 : ((⌈a / b⌉ : ℚ)) * b < (a / b + 1) * b :=
      mul_lt_mul_of_pos_right hf2 hb
    constructor <;> nlinarith [key]

/-- C10: after every call to `scroll_terminal` — whichever of the three
branches ran — the accumulated sub-cell scroll remainder is strictly smaller
than the cell dimensions in absolute value, because both components are
reduced `%=` by the cell width and height at the end of the call. -/
theorem accumulated_scroll_bounded (mouseMode altScroll : Bool)
    (multiplier : ℚ) (acc : AccumulatedScroll) (dx dy width height : ℚ)
    (hw : 0 < width) (hh : 0 < height) :
    |(scroll_terminal_accum mouseMode altScroll multiplier acc dx dy width
        height).x| < width ∧
    |(scroll_terminal_accum mouseMode altScroll multiplier acc dx dy width
        height).y| < height :=
  ⟨abs_frem_lt _ _ hw, abs_frem_lt _ _ hh⟩

/-- Witness for `accumulated_scroll_bounded`: mouse-mode off, alternate
scroll off, multiplier 3, accumulator (5, 7), pixel deltas (10, -30), cell
size 4 × 6. -/
theorem accumulated_scroll_bounded_witness :
    |(scroll_terminal_accum false false 3 ⟨5, 7⟩ 10 (-30) 4 6).x| < 4 ∧
    |(scroll_terminal_accum false false 3 ⟨5, 7⟩ 10 (-30) 4 6).y| < 6 :=
  accumulated_scroll_bounded false false 3 ⟨5, 7⟩ 10 (-30) 4 6
    (by norm_num) (by norm_num)

/-- After cancelling a timer key, no timer is pending under it. -/
theorem pendingWith_unschedule (s : SScheduler) (id : TimerId) :
    (s.unschedule id).pendingWith id = [] := by
  unfold SScheduler.pendingWith SScheduler.unschedule
  refine List.filter_eq_nil_iff.mpr ?_
  intro t ht
  have h2 := (List.mem_filter.mp ht).2
  simp only [bne_iff_ne, ne_eq] at h2
  simpa using h2

/-- Cancel-then-reschedule leaves exactly the new timer pending under the
key. -/
theorem pendingWith_schedule_same (s : SScheduler) (id : TimerId)
    (e : SchedEvent) (i : ℕ) (r : Bool) :
    ((s.unschedule id).schedule e i r id).pendingWith id = [⟨id, e, i, r⟩] := by
  unfold SScheduler.pendingWith SScheduler.schedule SScheduler.unschedule
  rw [List.filter_append]
  have h0 : (s.timers.filter (fun t => t.id != id)).filter
      (fun t => t.id == id) = [] := by
    refine List.filter_eq_nil_iff.mpr ?_
    intro t ht
    have h2 := (List.mem_filter.mp ht).2
    simp only [bne_iff_ne, ne_eq] at h2
    simpa using h2
  rw [h0]
  simp

/-- For a step of at least one pixel, the scaled delta one pixel above the
top boundary is nonzero. -/
theorem tdiv_one_add_ne_zero (step : ℤ) (h : 1 ≤ step) :
    Int.tdiv (1 + step) step ≠ 0 := by
  obtain ⟨m, rfl⟩ := Int.eq_ofNat_of_zero_le (le_trans zero_le_one h)
  have h1 : (1 + (m : ℤ)) = ((1 + m : ℕ) : ℤ) := by push_cast; ring
  rw [h1]
  have h2 : Int.tdiv ((1 + m : ℕ) : ℤ) ((m : ℕ) : ℤ) =
      (((1 + m) / m : ℕ) : ℤ) := rfl
  rw [h2]
  have hm : 1 ≤ m := by exact_mod_cast h
  have h3 : 1 ≤ (1 + m) / m := (Nat.one_le_div_iff (by omega)).mpr (by omega)
  exact Int.natCast_ne_zero.mpr (by omega)

/-- C8: selection auto-scroll policy.  Inside `[end_top, start_bottom)` the
selection-scrolling timer for the window is cancelled and none is scheduled;
otherwise the prior timer under the same key is cancelled first and one
repeating timer carrying `Scroll::Delta(delta / step)` is scheduled, so at
most one such timer is pending per window; and a pointer at
`y = end_top - 1` schedules a repeating timer whose delta is nonzero (for a
step of at least one pixel). -/
theorem selection_scrolling_policy (sched : SScheduler) (windowId : ℕ)
    (minHeight step paddingY height textAreaBottom mouseY : ℤ) :
    (endTopOf minHeight paddingY ≤ mouseY →
      mouseY < startBottomOf minHeight height textAreaBottom →
      update_selection_scrolling sched windowId minHeight step paddingY height
          textAreaBottom mouseY =
        sched.unschedule (selScrollTimerId windowId) ∧
      (update_selection_scrolling sched windowId minHeight step paddingY
          height textAreaBottom mouseY).pendingWith
        (selScrollTimerId windowId) = []) ∧
    (∀ delta,
      selScrollDelta minHeight step paddingY height textAreaBottom mouseY =
        some delta →
      update_selection_scrolling sched windowId minHeight step paddingY height
          textAreaBottom mouseY =
        (sched.unschedule (selScrollTimerId windowId)).schedule
          ⟨Int.tdiv delta step⟩ SELECTION_SCROLLING_INTERVAL true
          (selScrollTimerId windowId) ∧
      (update_selection_scrolling sched windowId minHeight step paddingY
          height textAreaBottom mouseY).pendingWith (selScrollTimerId windowId)
        = [⟨selScrollTimerId windowId, ⟨Int.tdiv delta step⟩,
            SELECTION_SCROLLING_INTERVAL, true⟩]) ∧
    ((update_selection_scrolling sched windowId minHeight step paddingY height
        textAreaBottom mouseY).pendingWith (selScrollTimerId windowId)).length
      ≤ 1 ∧
    (mouseY = endTopOf minHeight paddingY - 1 → 1 ≤ step →
      selScrollDelta minHeight step paddingY height textAreaBottom mouseY =
        some (1 + step) ∧
      (update_selection_scrolling sched windowId minHeight step paddingY
          height textAreaBottom mouseY).pendingWith (selScrollTimerId windowId)
        = [⟨selScrollTimerId windowId, ⟨Int.tdiv (1 + step) step⟩,
            SELECTION_SCROLLING_INTERVAL, true⟩] ∧
      Int.tdiv (1 + step) step ≠ 0) := by
  refine ⟨?_, ?_, ?_, ?_⟩
  · intro h1 h2
    have hnone : selScrollDelta minHeight step paddingY height textAreaBottom
        mouseY = none := by
      unfold selScrollDelta
      rw [if_neg (not_lt.mpr h1), if_neg (not_le.mpr h2)]
    constructor
    · unfold update_selection_scrolling
      rw [hnone]
    · unfold update_selection_scrolling
      rw [hnone]
      exact pendingWith_unschedule sched _
  · intro delta hd
    constructor
    · unfold update_selection_scrolling
      rw [hd]
    · unfold update_selection_scrolling
      rw [hd]
      exact pendingWith_schedule_same sched _ _ _ _
  · unfold update_selection_scrolling
    cases hd : selScrollDelta minHeight step paddingY height textAreaBottom
        mouseY with
    | none => simp [pendingWith_unschedule]
    | some delta => simp [pendingWith_schedule_same]
  · intro hY hstep
    have hcond : mouseY < endTopOf minHeight paddingY := by omega
    have hd : selScrollDelta minHeight step paddingY height textAreaBottom
        mouseY = some (1 + step) := by
      unfold selScrollDelta
      rw [if_pos hcond]
      congr 1
      omega
    refine ⟨hd, ?_, tdiv_one_add_ne_zero step hstep⟩
    unfold update_selection_scrolling
    rw [hd]
    exact pendingWith_schedule_same sched _ _ _ _

/-- Witness for `selection_scrolling_policy`: empty scheduler, window 0,
min-height 5, step 20, padding 2, window height 600, text-area bottom 580,
pointer at y = 4 = end_top - 1: exactly one repeating timer with delta
`(1 + 20).tdiv 20 = 1` is pending. -/
theorem selection_scrolling_policy_witness :
    (update_selection_scrolling ⟨[]⟩ 0 5 20 2 600 580 4).pendingWith
        (selScrollTimerId 0) =
      [⟨selScrollTimerId 0, ⟨1⟩, SELECTION_SCROLLING_INTERVAL, true⟩] := by
  have h := (selection_scrolling_policy ⟨[]⟩ 0 5 20 2 600 580 4).2.2.2
    (by decide) (by decide)
  rw [h.2.1]
  decide

end Alacritty
